import Mathlib

/-!
# EmailSender (src/email_simulator.cpp, lines 289-372)

A shallow embedding of the live part of `email_simulator.cpp`: the class
`EmailSender` (`getTimestamp`, the constructor, `sendEmail`) and `main`.

The program is a sequence of effects on its environment, so every operation is
a function on an explicit `World`: the filesystem, the wall clock, the external
mail command, standard input and the two output streams.  The standard-library
calls the program makes (`std::time`, `strftime` of `localtime`,
`fs::exists`, `fs::create_directories`, `std::ofstream`, `system`,
`std::getline`) are modelled by the small definitions of the first section;
what the program cannot determine (permissions, free space, the time zone, the
exit status of the mail command) is a field of the `World`, so that a theorem
quantified over every `World` holds whatever the environment answers.

Modelling conventions:
* a path is identified by its spelling; no normalisation is performed;
* the external mail command is a black box whose only observable effect is
  the status returned by `system`; files it may create itself are not part of
  the model;
* an exception is the `error` side of `Except`.
-/

set_option linter.dupNamespace false

namespace EmailSim

/-! ## The environment -/

/-- An entry of the filesystem: a regular file with its content, or a directory. -/
inductive Node where
  | file (content : String)
  | dir
deriving DecidableEq

/-- The filesystem: what is stored under each path. -/
abbrev FS := String → Option Node

/-- The filesystem with the entry at `p` replaced by `n`. -/
def FS.set (fs : FS) (p : String) (n : Node) : FS :=
  fun q => if q = p then some n else fs q

/-- The exception thrown by `std::filesystem` operations, with the path at fault. -/
inductive Exn where
  | filesystem_error (path : String)
deriving DecidableEq

/-- Everything the program reads or changes. -/
structure World where
  /-- Whether the program was compiled with `_WIN32` defined. -/
  win32 : Bool
  /-- The filesystem. -/
  fs : FS
  /-- Whether the status of a path cannot be determined (a parent that may not
  be searched, a loop of symbolic links, a name that is too long). -/
  statFails : String → Bool
  /-- Whether the process may create a directory at a path. -/
  mayCreate : String → Bool
  /-- Whether opening a path for writing succeeds. -/
  mayOpen : String → Bool
  /-- How many characters the device still accepts for the file at a path
  (`none`: no limit). -/
  room : String → Option Nat
  /-- The value `system` returns for a command line, given the filesystem. -/
  system : String → FS → Int
  /-- The successive answers of the wall clock, in seconds since the epoch. -/
  clock : Nat → Int
  /-- How many times the clock has been read. -/
  reads : Nat
  /-- The text `strftime` gives for "%Y-%m-%d %H:%M:%S" on `localtime` of an instant. -/
  localFormat : Int → String
  /-- The lines of standard input not yet consumed. -/
  stdin : List String
  /-- What has been written to standard output. -/
  cout : String
  /-- What has been written to standard error. -/
  cerr : String

/-- The call `std::time(nullptr)`: the next answer of the clock. -/
def time (w : World) : Int × World :=
  (w.clock w.reads, { w with reads := w.reads + 1 })

/-- The call `fs::exists(p)`, the overload that throws: an exception when the
status of the path cannot be determined, otherwise whether there is an entry. -/
def fs_exists (p : String) (w : World) : Except Exn Bool :=
  if w.statFails p then Except.error (Exn.filesystem_error p)
  else Except.ok (w.fs p).isSome

/-- The proper ancestors of a path, outermost first: every non-empty part of
the spelling that stands before a separator and does not itself end in one. -/
def ancestorsAux (pre : List Char) : List Char → List String
  | [] => []
  | c :: rest =>
    if c = '/' ∧ pre ≠ [] ∧ pre.getLast? ≠ some '/' then
      String.mk pre :: ancestorsAux (pre ++ [c]) rest
    else ancestorsAux (pre ++ [c]) rest

/-- The proper ancestors of a path. -/
def ancestors (p : String) : List String :=
  ancestorsAux [] p.data

/-- One step of `fs::create_directories`: an existing directory is kept, an
existing non-directory is an error, a missing entry is created when allowed. -/
def makeDir (p : String) (w : World) : Except Exn World :=
  match w.fs p with
  | some Node.dir => Except.ok w
  | some (Node.file _) => Except.error (Exn.filesystem_error p)
  | none =>
    if w.mayCreate p then Except.ok { w with fs := w.fs.set p Node.dir }
    else Except.error (Exn.filesystem_error p)

/-- The step `makeDir` along a list of paths, stopping at the first error. -/
def makeDirs : List String → World → Except Exn World
  | [], w => Except.ok w
  | p :: ps, w =>
    match makeDir p w with
    | Except.error e => Except.error e
    | Except.ok w1 => makeDirs ps w1

/-- The call `fs::create_directories(p)` (its boolean result is not used by the
program): every missing ancestor, then `p` itself. -/
def create_directories (p : String) (w : World) : Except Exn World :=
  if p = "" then Except.error (Exn.filesystem_error p)
  else makeDirs (ancestors p ++ [p]) w

/-- An output file stream: the path it was opened on, whether it is in a good
state, and the characters written to it so far. -/
structure OFStream where
  path : String
  ok : Bool
  pending : String

/-- The declaration `std::ofstream f(filename)`: on success the file exists and is empty. -/
def ofstream (filename : String) (w : World) : OFStream × World :=
  if w.mayOpen filename then
    (⟨filename, true, ""⟩, { w with fs := w.fs.set filename (Node.file "") })
  else (⟨filename, false, ""⟩, w)

/-- The operator `f << x`; nothing is written once the stream has failed. -/
def OFStream.put (s : OFStream) (x : String) : OFStream :=
  if s.ok then { s with pending := s.pending ++ x } else s

/-- The part of a text the device accepts. -/
def accepted (room : Option Nat) (s : String) : String :=
  match room with
  | none => s
  | some n => String.mk (s.data.take n)

/-- The call `f.close()`: what was written reaches the file, as far as there is room. -/
def OFStream.close (s : OFStream) (w : World) : World :=
  if s.ok then
    { w with fs := w.fs.set s.path (Node.file (accepted (w.room s.path) s.pending)) }
  else w

/-- Writing to `std::cout`. -/
def World.print (w : World) (s : String) : World :=
  { w with cout := w.cout ++ s }

/-- Writing to `std::cerr`. -/
def World.eprint (w : World) (s : String) : World :=
  { w with cerr := w.cerr ++ s }

/-- The call `std::getline(std::cin, s)`: whether a line was read, the new
value of `s` (empty on failure), and the world after. -/
def getline (w : World) : Bool × String × World :=
  match w.stdin with
  | [] => (false, "", w)
  | l :: rest => (true, l, { w with stdin := rest })

/-! ## The class `EmailSender` -/

/-- The class `EmailSender`: its only member is `storagePath`. -/
structure EmailSender where
  storagePath : String
deriving DecidableEq

/-- The method `EmailSender::getTimestamp` (lines 302-307). -/
def EmailSender.getTimestamp (_self : EmailSender) (w : World) : String × World :=
  let (now, w) := time w
  (w.localFormat now, w)

/-- The constructor `EmailSender::EmailSender` (lines 310-314). -/
def EmailSender.EmailSender (path : String) (w : World) : Except Exn (EmailSender × World) :=
  match fs_exists path w with
  | Except.error e => Except.error e
  | Except.ok found =>
    if !found then
      match create_directories path w with
      | Except.error e => Except.error e
      | Except.ok w1 => Except.ok (⟨path⟩, w1)
    else Except.ok (⟨path⟩, w)

/-- The expression of line 321: the name of the message file for a timestamp. -/
def emailFilename (storagePath timestamp : String) : String :=
  storagePath ++ "/" ++ timestamp ++ ".eml"

/-- The expression of line 322: the message identifier for an instant. -/
def emailMessageId (now : Int) : String :=
  "<" ++ toString now ++ "@local>"

/-- The method `EmailSender::sendEmail` (lines 316-345). -/
def EmailSender.sendEmail (self : EmailSim.EmailSender) (to_ subject body from_ : String)
    (w : World) : Bool × World :=
  let (ts, w) := self.getTimestamp w
  let filename := self.storagePath ++ "/" ++ ts ++ ".eml"
  let (now, w) := time w
  let messageId := "<" ++ toString now ++ "@local>"
  let (emailFile, w) := ofstream filename w
  if !emailFile.ok then (false, w) else
  let emailFile := ((emailFile.put "From: ").put from_).put "\n"
  let emailFile := ((emailFile.put "To: ").put to_).put "\n"
  let emailFile := ((emailFile.put "Subject: ").put subject).put "\n"
  let (date, w) := self.getTimestamp w
  let emailFile := ((emailFile.put "Date: ").put date).put "\n"
  let emailFile := ((emailFile.put "Message-ID: ").put messageId).put "\n\n"
  let emailFile := (emailFile.put body).put "\n"
  let w := emailFile.close w
  if w.win32 then (true, w) else
  let cmd := "sendmail -t < \"" ++ filename ++ "\""
  if w.system cmd w.fs != 0 then
    (false, w.eprint ("Sendmail failed, email saved to " ++ filename ++ "\n"))
  else (true, w)

/-! ## The function `main` -/

/-- The loop of lines 361-363 on the remaining input lines: the body read, and
the lines left after the loop. -/
def readBody : List String → String → String × List String
  | [], body => (body, [])
  | line :: rest, body =>
    if line != "." then readBody rest (body ++ (line ++ "\n")) else (body, rest)

/-- Lines 351-363 of `main`: the prompts and the three fields read. -/
def readMessage (w : World) : (String × String × String) × World :=
  let w := w.print "To: "
  let (_, to_, w) := getline w
  let w := w.print "Subject: "
  let (_, subject, w) := getline w
  let w := w.print "Body (end with a dot on a new line):\n"
  let (body, rest) := readBody w.stdin ""
  ((to_, subject, body), { w with stdin := rest })

/-- Lines 365-369 of `main`: the report of the outcome. -/
def report (r : Bool × World) : World :=
  if r.1 then r.2.print "Email sent successfully!\n"
  else r.2.eprint "Failed to send email.\n"

/-- The function `main` (lines 348-372): the exit status and the world after,
or the exception that leaves it. -/
def main (w : World) : Except Exn (Int × World) :=
  match EmailSender.EmailSender "emails" w with
  | Except.error e => Except.error e
  | Except.ok (sender, w) =>
    let (m, w) := readMessage w
    let w := report (sender.sendEmail m.1 m.2.1 m.2.2 "noreply@localhost" w)
    Except.ok (0, w)

/-! ## A concrete environment -/

/-- A number in decimal, padded with zeros to a width. -/
def pad (width n : Nat) : String :=
  let s := toString n
  String.mk (List.replicate (width - s.length) '0') ++ s

/-- The civil date (year, month, day) of a day number counted from 1970-01-01. -/
def civilFromDays (z : Int) : Int × Nat × Nat :=
  let z := z + 719468
  let era := z / 146097
  let doe := (z - era * 146097).toNat
  let yoe := (doe - doe / 1460 + doe / 36524 - doe / 146096) / 365
  let doy := doe - (365 * yoe + yoe / 4 - yoe / 100)
  let mp := (5 * doy + 2) / 153
  let d := doy - (153 * mp + 2) / 5 + 1
  let m := if mp < 10 then mp + 3 else mp - 9
  let y := (yoe : Int) + era * 400
  (if m ≤ 2 then y + 1 else y, m, d)

/-- The format "%Y-%m-%d %H:%M:%S" on a host whose local time is UTC. -/
def utcFormat (t : Int) : String :=
  let days := t / 86400
  let secs := (t - days * 86400).toNat
  let (y, m, d) := civilFromDays days
  toString y ++ "-" ++ pad 2 m ++ "-" ++ pad 2 d ++ " " ++
    pad 2 (secs / 3600) ++ ":" ++ pad 2 (secs / 60 % 60) ++ ":" ++ pad 2 (secs % 60)

/-- An environment for the examples: an empty filesystem, nothing forbidden,
a mail command that accepts everything, local time UTC. -/
def world0 : World where
  win32 := false
  fs := fun _ => none
  statFails := fun _ => false
  mayCreate := fun _ => true
  mayOpen := fun _ => true
  room := fun _ => none
  system := fun _ _ => 0
  clock := fun _ => 1700000000
  reads := 0
  localFormat := utcFormat
  stdin := []
  cout := ""
  cerr := ""

/-- The environment `world0` on a device that accepts ten characters per file. -/
def worldFull : World :=
  { world0 with room := fun _ => some 10 }

/-- The environment `world0` on a device that accepts forty-six characters per
file: room for the first two header lines of the example message. -/
def worldShort : World :=
  { world0 with room := fun _ => some 46 }

/-- The environment `world0` with a clock that advances by one second at every reading. -/
def worldTicking : World :=
  { world0 with clock := fun n => 1700000000 + (n : Int) }

/-- The environment `world0` with a mail command that exits with code 1
(the status `system` returns is then 256). -/
def worldRejecting : World :=
  { world0 with system := fun _ _ => 256 }

/-- The environment `world0` where no directory may be created. -/
def worldLocked : World :=
  { world0 with mayCreate := fun _ => false }

/-- The environment `world0` where `emails` exists as a regular file. -/
def worldFileAtEmails : World :=
  { world0 with fs := fun p => if p = "emails" then some (Node.file "notes") else none }

/-- The environment `world0` where `data` exists as a regular file. -/
def worldFileAtData : World :=
  { world0 with fs := fun p => if p = "data" then some (Node.file "notes") else none }

/-- The environment `world0` where the status of no path can be determined. -/
def worldUnsearchable : World :=
  { world0 with statFails := fun _ => true }

/-- The environment `world0` where no file can be opened for writing and the
mail command fails. -/
def worldSealed : World :=
  { world0 with mayOpen := fun _ => false, system := fun _ _ => 256 }

/-- The environment `world0` with five lines on standard input. -/
def worldInput : World :=
  { world0 with stdin := ["alice@example.com", "Hi", "hello", ".", "ignored"] }

/-- The world the constructor leaves when it is run on `emails` in `world0`. -/
def worldWithEmails : World :=
  { world0 with fs := world0.fs.set "emails" Node.dir }

/-! ## The specification's words -/

/-- The content of a message file as the specification words it: the five
header lines, an empty line, the body and a final newline. -/
def emailContent (from_ to_ subject date messageId body : String) : String :=
  "From: " ++ from_ ++ "\n" ++ "To: " ++ to_ ++ "\n" ++ "Subject: " ++ subject ++ "\n" ++
    "Date: " ++ date ++ "\n" ++ "Message-ID: " ++ messageId ++ "\n" ++ "\n" ++ body ++ "\n"

/-- The recipient as the specification words it: the first input line. -/
def specRecipient (lines : List String) : String :=
  lines.headD ""

/-- The subject as the specification words it: the second input line. -/
def specSubject (lines : List String) : String :=
  (lines.drop 1).headD ""

/-- The body as the specification words it: the lines after the second that
precede the first line equal to ".", each followed by a newline, in order. -/
def specBody (lines : List String) : String :=
  String.join (((lines.drop 2).takeWhile (fun l => l != ".")).map (fun l => l ++ "\n"))

/-! ## Names for the parts of one call of `sendEmail` -/

/-- The command line `sendEmail` hands to `system` for a message file (line 337). -/
def sendmailCommand (filename : String) : String :=
  "sendmail -t < \"" ++ filename ++ "\""

/-- The name of the file a call of `sendEmail` in world `w` writes to: the
timestamp comes from the first clock reading of the call. -/
def targetFile (self : EmailSender) (w : World) : String :=
  emailFilename self.storagePath (w.localFormat (w.clock w.reads))

/-- The text a call of `sendEmail` in world `w` sends to its file stream: the
message identifier comes from the second clock reading of the call, the date
from the third. -/
def messageText (to_ subject body from_ : String) (w : World) : String :=
  emailContent from_ to_ subject (w.localFormat (w.clock (w.reads + 2)))
    (emailMessageId (w.clock (w.reads + 1))) body

/-- The world when `sendEmail` reaches the dispatch step: three clock readings
taken and the accepted part of the message in the file. -/
def afterWrite (self : EmailSender) (to_ subject body from_ : String) (w : World) : World :=
  { w with
    reads := w.reads + 3
    fs := w.fs.set (targetFile self w)
      (Node.file (accepted (w.room (targetFile self w)) (messageText to_ subject body from_ w))) }

/-! ## Basic facts -/

theorem FS.set_same (fs : FS) (p : String) (n : Node) : (fs.set p n) p = some n := by
  simp [FS.set]

theorem FS.set_other (fs : FS) (p q : String) (n : Node) (h : q ≠ p) :
    (fs.set p n) q = fs q := by
  simp [FS.set, h]

theorem FS.set_set (fs : FS) (p : String) (a b : Node) :
    (fs.set p a).set p b = fs.set p b := by
  funext q
  by_cases h : q = p <;> simp [FS.set, h]

theorem newline_twice : "\n\n" = "\n" ++ "\n" := by decide

/-- The characters `sendEmail` puts on its stream, one after the other, make
up the content the specification describes. -/
theorem stream_text_eq (from_ to_ subject date body : String) (now : Int) :
    "" ++ "From: " ++ from_ ++ "\n" ++ "To: " ++ to_ ++ "\n" ++ "Subject: " ++ subject ++ "\n" ++
      "Date: " ++ date ++ "\n" ++ "Message-ID: " ++ ("<" ++ toString now ++ "@local>") ++
      "\n\n" ++ body ++ "\n" = emailContent from_ to_ subject date (emailMessageId now) body := by
  simp only [emailContent, emailMessageId, newline_twice, String.append_assoc,
    String.empty_append]

/-- What `sendEmail` does, in one equation. -/
theorem sendEmail_eq (self : EmailSender) (to_ subject body from_ : String) (w : World) :
    self.sendEmail to_ subject body from_ w =
      if w.mayOpen (targetFile self w) then
        if w.win32 then (true, afterWrite self to_ subject body from_ w)
        else if w.system (sendmailCommand (targetFile self w))
            (afterWrite self to_ subject body from_ w).fs != 0 then
          (false, (afterWrite self to_ subject body from_ w).eprint
            ("Sendmail failed, email saved to " ++ targetFile self w ++ "\n"))
        else (true, afterWrite self to_ subject body from_ w)
      else (false, { w with reads := w.reads + 2 }) := by
  by_cases ho : w.mayOpen (targetFile self w) = true
  · have ho2 : w.mayOpen (self.storagePath ++ "/" ++ w.localFormat (w.clock w.reads) ++ ".eml")
        = true := ho
    simp only [EmailSender.sendEmail, EmailSender.getTimestamp, time, ofstream, ho, ho2,
      OFStream.put, OFStream.close, if_true, Bool.not_true, Bool.false_eq_true, if_false,
      FS.set_set]
    rw [stream_text_eq]
    rfl
  · have ho2 : ¬ w.mayOpen (self.storagePath ++ "/" ++ w.localFormat (w.clock w.reads) ++ ".eml")
        = true := ho
    simp [EmailSender.sendEmail, EmailSender.getTimestamp, time, ofstream, ho, ho2]

/-- The filesystem after a call of `sendEmail`. -/
theorem sendEmail_fs (self : EmailSender) (to_ subject body from_ : String) (w : World) :
    (self.sendEmail to_ subject body from_ w).2.fs =
      if w.mayOpen (targetFile self w) then (afterWrite self to_ subject body from_ w).fs
      else w.fs := by
  rw [sendEmail_eq]
  by_cases ho : w.mayOpen (targetFile self w) = true
  · by_cases hw : w.win32 = true
    · simp [ho, hw]
    · by_cases hs : (w.system (sendmailCommand (targetFile self w))
          (afterWrite self to_ subject body from_ w).fs != 0) = true
      · simp only [ho, hw, hs, if_true, if_false]
        rfl
      · simp [ho, hw, hs]
  · simp [ho]

/-- The names of two message files in one directory agree only when their
timestamps do. -/
theorem emailFilename_inj (storagePath a b : String)
    (h : emailFilename storagePath a = emailFilename storagePath b) : a = b := by
  have hd := congrArg String.data h
  simp only [emailFilename, String.data_append, List.append_assoc] at hd
  have h1 := List.append_cancel_left hd
  have h2 := List.append_cancel_left h1
  have h3 := List.append_cancel_right h2
  exact String.ext h3

/-- When the file can be opened and the device accepts the whole message, the
target path holds the message after the call. -/
theorem sendEmail_fs_target (self : EmailSender) (to_ subject body from_ : String) (w : World)
    (hopen : w.mayOpen (targetFile self w) = true)
    (hroom : accepted (w.room (targetFile self w)) (messageText to_ subject body from_ w)
      = messageText to_ subject body from_ w) :
    (self.sendEmail to_ subject body from_ w).2.fs (targetFile self w)
      = some (Node.file (messageText to_ subject body from_ w)) := by
  rw [sendEmail_fs]
  simp only [hopen, if_true, afterWrite, hroom]
  exact FS.set_same _ _ _

/-- C1 (amended). Whenever the message file can be opened and the device
accepts the whole message, `sendEmail` leaves exactly the message at
`storagePath/<timestamp>.eml` (the five header lines with `from`, `to`,
`subject`, the timestamp and the message identifier, an empty line, the body,
a newline) and leaves every other path of the filesystem as it was. -/
theorem sendEmail_writes_message (self : EmailSender) (to_ subject body from_ : String)
    (w : World)
    (hopen : w.mayOpen (emailFilename self.storagePath (w.localFormat (w.clock w.reads))) = true)
    (hroom : accepted
        (w.room (emailFilename self.storagePath (w.localFormat (w.clock w.reads))))
        (messageText to_ subject body from_ w) = messageText to_ subject body from_ w) :
    (self.sendEmail to_ subject body from_ w).2.fs
        (emailFilename self.storagePath (w.localFormat (w.clock w.reads)))
      = some (Node.file (emailContent from_ to_ subject
          (w.localFormat (w.clock (w.reads + 2))) (emailMessageId (w.clock (w.reads + 1))) body))
    ∧ ∀ p, p ≠ emailFilename self.storagePath (w.localFormat (w.clock w.reads)) →
        (self.sendEmail to_ subject body from_ w).2.fs p = w.fs p := by
  have ho : w.mayOpen (targetFile self w) = true := hopen
  have hr : accepted (w.room (targetFile self w)) (messageText to_ subject body from_ w)
      = messageText to_ subject body from_ w := hroom
  rw [sendEmail_fs]
  simp only [ho, if_true, afterWrite, hr]
  constructor
  · exact FS.set_same _ _ _
  · intro p hp
    exact FS.set_other _ _ _ _ hp

/-- C1 (counterexample). On a device that accepts ten characters the message
file can be opened, and after `sendEmail` it holds the first ten characters of
the message only, not the whole message. -/
theorem sendEmail_content_counterexample :
    worldFull.mayOpen "emails/2023-11-14 22:13:20.eml" = true ∧
    ((⟨"emails"⟩ : EmailSender).sendEmail "alice@example.com" "Hi" "hello\n"
        "noreply@localhost" worldFull).2.fs "emails/2023-11-14 22:13:20.eml"
      = some (Node.file "From: nore") ∧
    ((⟨"emails"⟩ : EmailSender).sendEmail "alice@example.com" "Hi" "hello\n"
        "noreply@localhost" worldFull).2.fs "emails/2023-11-14 22:13:20.eml"
      ≠ some (Node.file (emailContent "noreply@localhost" "alice@example.com" "Hi"
          "2023-11-14 22:13:20" "<1700000000@local>" "hello\n")) := by
  decide

/-- C1 (witness). With to = alice@example.com, subject = Hi and body = hello,
the file holds the lines `To: alice@example.com`, `Subject: Hi` and the body
section, and no other path changes. -/
theorem sendEmail_writes_message_witness :
    ((⟨"emails"⟩ : EmailSender).sendEmail "alice@example.com" "Hi" "hello\n"
        "noreply@localhost" world0).2.fs "emails/2023-11-14 22:13:20.eml"
      = some (Node.file ("From: noreply@localhost\nTo: alice@example.com\nSubject: Hi\n" ++
          "Date: 2023-11-14 22:13:20\nMessage-ID: <1700000000@local>\n\nhello\n\n"))
    ∧ ∀ p, p ≠ "emails/2023-11-14 22:13:20.eml" →
        ((⟨"emails"⟩ : EmailSender).sendEmail "alice@example.com" "Hi" "hello\n"
          "noreply@localhost" world0).2.fs p = world0.fs p :=
  sendEmail_writes_message ⟨"emails"⟩ "alice@example.com" "Hi" "hello\n" "noreply@localhost"
    world0 (by decide) (by decide)

/-- The result of a call of `sendEmail`. -/
theorem sendEmail_result (self : EmailSender) (to_ subject body from_ : String) (w : World) :
    (self.sendEmail to_ subject body from_ w).1 =
      (w.mayOpen (targetFile self w) &&
        (w.win32 || w.system (sendmailCommand (targetFile self w))
          (afterWrite self to_ subject body from_ w).fs == 0)) := by
  rw [sendEmail_eq]
  by_cases ho : w.mayOpen (targetFile self w) = true
  · by_cases hw : w.win32 = true
    · simp [ho, hw]
    · by_cases hs : w.system (sendmailCommand (targetFile self w))
          (afterWrite self to_ subject body from_ w).fs = 0
      · simp [ho, hw, hs]
      · simp [ho, hw, hs]
  · simp [ho]

/-- C2 (counterexample). On a device with room for two header lines the
message file is opened but cannot be written in full: it ends after the `To`
line. The mail command returns 0 and `sendEmail` returns true although the
file write did not succeed. -/
theorem sendEmail_unwritten_counterexample :
    worldShort.win32 = false ∧
    ((⟨"emails"⟩ : EmailSender).sendEmail "alice@example.com" "Hi" "hello\n"
        "noreply@localhost" worldShort).2.fs "emails/2023-11-14 22:13:20.eml"
      = some (Node.file "From: noreply@localhost\nTo: alice@example.com\n") ∧
    ((⟨"emails"⟩ : EmailSender).sendEmail "alice@example.com" "Hi" "hello\n"
        "noreply@localhost" worldShort).1 = true := by
  decide

/-- C2 (amended). On a build with the dispatch step, `sendEmail` returns true
exactly when the message file could be opened and `system` returned 0 for the
mail command; so it returns false when the file cannot be opened and false
when the status is not 0. Whether the writes after the opening succeeded has
no part in the result. -/
theorem sendEmail_success_iff (self : EmailSender) (to_ subject body from_ : String)
    (w : World) (hbuild : w.win32 = false) :
    (self.sendEmail to_ subject body from_ w).1 = true ↔
      (w.mayOpen (emailFilename self.storagePath (w.localFormat (w.clock w.reads))) = true ∧
        w.system
          (sendmailCommand (emailFilename self.storagePath (w.localFormat (w.clock w.reads))))
          (afterWrite self to_ subject body from_ w).fs = 0) := by
  rw [sendEmail_result]
  simp [hbuild, targetFile]

/-- C2 (witness). With a mail command that exits with code 1 the call
returns false although the file was opened. -/
theorem sendEmail_success_iff_witness :
    worldRejecting.win32 = false ∧
    (((⟨"emails"⟩ : EmailSender).sendEmail "a@b" "s" "t" "noreply@localhost" worldRejecting).1
        = true ↔
      (worldRejecting.mayOpen (emailFilename "emails"
          (worldRejecting.localFormat (worldRejecting.clock worldRejecting.reads))) = true ∧
        worldRejecting.system
          (sendmailCommand (emailFilename "emails"
            (worldRejecting.localFormat (worldRejecting.clock worldRejecting.reads))))
          (afterWrite ⟨"emails"⟩ "a@b" "s" "t" "noreply@localhost" worldRejecting).fs = 0)) :=
  ⟨rfl, sendEmail_success_iff ⟨"emails"⟩ "a@b" "s" "t" "noreply@localhost" worldRejecting rfl⟩

/-- C3. On a build with the dispatch step, when the message file was opened
and written and `system` returns a nonzero status for the mail command,
`sendEmail` returns false, and the filesystem after the call is the one the
mail command was started on: the message file is at the same path with the
content written before the dispatch, and no other path differs. The path of
the file is reported on standard error. -/
theorem sendEmail_dispatch_failure_keeps_file (self : EmailSender)
    (to_ subject body from_ : String) (w : World) (hbuild : w.win32 = false)
    (hopen : w.mayOpen (targetFile self w) = true)
    (hfail : w.system (sendmailCommand (targetFile self w))
        (afterWrite self to_ subject body from_ w).fs ≠ 0) :
    (self.sendEmail to_ subject body from_ w).1 = false ∧
    (self.sendEmail to_ subject body from_ w).2.fs = (afterWrite self to_ subject body from_ w).fs ∧
    (self.sendEmail to_ subject body from_ w).2.fs (targetFile self w) =
      some (Node.file
        (accepted (w.room (targetFile self w)) (messageText to_ subject body from_ w))) ∧
    (self.sendEmail to_ subject body from_ w).2.cerr =
      w.cerr ++ ("Sendmail failed, email saved to " ++ targetFile self w ++ "\n") := by
  have hfs := sendEmail_fs self to_ subject body from_ w
  simp only [hopen, if_true] at hfs
  refine ⟨?_, hfs, ?_, ?_⟩
  · rw [sendEmail_result]
    simp [hbuild, hfail]
  · rw [hfs]
    exact FS.set_same _ _ _
  · rw [sendEmail_eq]
    have hs : (w.system (sendmailCommand (targetFile self w))
        (afterWrite self to_ subject body from_ w).fs != 0) = true := by
      simpa using hfail
    simp only [hopen, hbuild, hs, if_true, Bool.false_eq_true, if_false]
    rfl

/-- C3 (witness). The mail command exits with code 1: the call returns false
and the file is still there with the whole message. -/
theorem sendEmail_dispatch_failure_keeps_file_witness :
    ((⟨"emails"⟩ : EmailSender).sendEmail "alice@example.com" "Hi" "hello\n"
        "noreply@localhost" worldRejecting).1 = false ∧
    ((⟨"emails"⟩ : EmailSender).sendEmail "alice@example.com" "Hi" "hello\n"
        "noreply@localhost" worldRejecting).2.fs "emails/2023-11-14 22:13:20.eml" =
      some (Node.file ("From: noreply@localhost\nTo: alice@example.com\nSubject: Hi\n" ++
          "Date: 2023-11-14 22:13:20\nMessage-ID: <1700000000@local>\n\nhello\n\n")) :=
  have h := sendEmail_dispatch_failure_keeps_file ⟨"emails"⟩ "alice@example.com" "Hi" "hello\n"
    "noreply@localhost" worldRejecting rfl (by decide) (by decide)
  ⟨h.1, h.2.2.1⟩

/-- C4 (counterexample). With a clock that advances by one second at every
reading, the file named after 22:13:20 carries the date 22:13:22 and the
message identifier of 22:13:21: three different instants in one message. -/
theorem sendEmail_timestamp_counterexample :
    ((⟨"emails"⟩ : EmailSender).sendEmail "alice@example.com" "Hi" "hello\n"
        "noreply@localhost" worldTicking).2.fs (emailFilename "emails" "2023-11-14 22:13:20")
      = some (Node.file (emailContent "noreply@localhost" "alice@example.com" "Hi"
          "2023-11-14 22:13:22" (emailMessageId 1700000001) "hello\n")) ∧
    "2023-11-14 22:13:20" ≠ "2023-11-14 22:13:22" ∧
    worldTicking.localFormat 1700000001 ≠ "2023-11-14 22:13:20" := by
  decide

/-- C4 (amended). One call of `sendEmail` reads the clock three times: for the
file name, for the message identifier and for the date header. Whenever the
first and the third reading format to the same text, the timestamp in the
file name is the timestamp of the date header; the message identifier is
derived from the second reading. -/
theorem sendEmail_timestamps (self : EmailSender) (to_ subject body from_ : String)
    (w : World) (hopen : w.mayOpen (targetFile self w) = true)
    (hroom : accepted (w.room (targetFile self w)) (messageText to_ subject body from_ w)
      = messageText to_ subject body from_ w)
    (hsame : w.localFormat (w.clock w.reads) = w.localFormat (w.clock (w.reads + 2))) :
    (self.sendEmail to_ subject body from_ w).2.fs
        (emailFilename self.storagePath (w.localFormat (w.clock w.reads)))
      = some (Node.file (emailContent from_ to_ subject (w.localFormat (w.clock w.reads))
          (emailMessageId (w.clock (w.reads + 1))) body)) := by
  have h := sendEmail_fs_target self to_ subject body from_ w hopen hroom
  simp only [messageText, ← hsame] at h
  exact h

/-- C4 (witness). With a clock that stands still during the call, the file
name and the date header carry the same timestamp. -/
theorem sendEmail_timestamps_witness :
    ((⟨"emails"⟩ : EmailSender).sendEmail "alice@example.com" "Hi" "hello\n"
        "noreply@localhost" world0).2.fs (emailFilename "emails" "2023-11-14 22:13:20")
      = some (Node.file (emailContent "noreply@localhost" "alice@example.com" "Hi"
          "2023-11-14 22:13:20" (emailMessageId 1700000000) "hello\n")) :=
  sendEmail_timestamps ⟨"emails"⟩ "alice@example.com" "Hi" "hello\n" "noreply@localhost"
    world0 (by decide) (by decide) (by decide)

/-- C5 (counterexample). Where the directory `emails` does not exist and may
not be created, the exception of the constructor leaves `main`. -/
theorem main_exception_counterexample :
    worldLocked.fs "emails" = none ∧
    main worldLocked = Except.error (Exn.filesystem_error "emails") :=
  ⟨rfl, rfl⟩

/-- C5 (amended). Whenever the constructor returns (the storage directory
exists or could be created), `main` returns the exit status 0, whatever the
input and whether or not the message file could be opened and the mail command
succeeded; an exception of the constructor is not caught and leaves `main`. -/
theorem main_exit_status (w : World) :
    (∀ p, EmailSender.EmailSender "emails" w = Except.ok p →
      ∃ w2, main w = Except.ok (0, w2)) ∧
    (∀ e, EmailSender.EmailSender "emails" w = Except.error e → main w = Except.error e) := by
  constructor
  · intro p h
    obtain ⟨sender, w1⟩ := p
    simp only [main, h]
    exact ⟨_, rfl⟩
  · intro e h
    simp only [main, h]

/-- C5 (witness). No file can be opened and the mail command fails, and
`main` still returns 0. -/
theorem main_exit_status_witness :
    (∃ w2, main worldSealed = Except.ok (0, w2)) ∧
    main worldLocked = Except.error (Exn.filesystem_error "emails") :=
  ⟨(main_exit_status worldSealed).1 _ rfl, (main_exit_status worldLocked).2 _ rfl⟩

/-- A successful step of `create_directories` leaves a directory at its path. -/
theorem makeDir_self (p : String) (w w1 : World) (h : makeDir p w = Except.ok w1) :
    w1.fs p = some Node.dir := by
  unfold makeDir at h
  split at h
  · next hd => cases h; exact hd
  · cases h
  · split at h
    · cases h; exact FS.set_same _ _ _
    · cases h

/-- A successful step of `create_directories` keeps every entry there is. -/
theorem makeDir_keeps (p : String) (w w1 : World) (h : makeDir p w = Except.ok w1)
    (q : String) (n : Node) (hq : w.fs q = some n) : w1.fs q = some n := by
  unfold makeDir at h
  split at h
  · cases h; exact hq
  · cases h
  · next hnone =>
    split at h
    · cases h
      have hne : q ≠ p := by
        intro heq
        rw [heq, hnone] at hq
        cases hq
      show (w.fs.set p Node.dir) q = some n
      rw [FS.set_other _ _ _ _ hne]
      exact hq
    · cases h

/-- A successful step of `create_directories` changes the filesystem only. -/
theorem makeDir_frame (p : String) (w w1 : World) (h : makeDir p w = Except.ok w1) :
    w1 = { w with fs := w1.fs } := by
  unfold makeDir at h
  split at h
  · cases h; rfl
  · cases h
  · split at h
    · cases h; rfl
    · cases h

theorem makeDirs_keeps (ps : List String) (w w1 : World) (h : makeDirs ps w = Except.ok w1)
    (q : String) (n : Node) (hq : w.fs q = some n) : w1.fs q = some n := by
  induction ps generalizing w with
  | nil => cases h; exact hq
  | cons p ps ih =>
    unfold makeDirs at h
    cases hm : makeDir p w with
    | error e => rw [hm] at h; cases h
    | ok w2 =>
      rw [hm] at h
      exact ih w2 h (makeDir_keeps p w w2 hm q n hq)

theorem makeDirs_frame (ps : List String) (w w1 : World) (h : makeDirs ps w = Except.ok w1) :
    w1 = { w with fs := w1.fs } := by
  induction ps generalizing w with
  | nil => cases h; rfl
  | cons p ps ih =>
    unfold makeDirs at h
    cases hm : makeDir p w with
    | error e => rw [hm] at h; cases h
    | ok w2 =>
      rw [hm] at h
      have h1 := ih w2 h
      have h2 := makeDir_frame p w w2 hm
      rw [h1, h2]

theorem makeDirs_last (ps : List String) (p : String) (w w1 : World)
    (h : makeDirs (ps ++ [p]) w = Except.ok w1) : w1.fs p = some Node.dir := by
  induction ps generalizing w with
  | nil =>
    simp only [List.nil_append, makeDirs] at h
    cases hm : makeDir p w with
    | error e => rw [hm] at h; cases h
    | ok w2 =>
      rw [hm] at h
      cases h
      exact makeDir_self p w w1 hm
  | cons a ps ih =>
    simp only [List.cons_append, makeDirs] at h
    cases hm : makeDir a w with
    | error e => rw [hm] at h; cases h
    | ok w2 =>
      rw [hm] at h
      exact ih w2 h

/-- After a successful `create_directories` the path is a directory. -/
theorem create_directories_self (p : String) (w w1 : World)
    (h : create_directories p w = Except.ok w1) : w1.fs p = some Node.dir := by
  unfold create_directories at h
  split at h
  · cases h
  · exact makeDirs_last _ p w w1 h

/-- A successful step of `create_directories` leaves every other path as it was. -/
theorem makeDir_other (p : String) (w w1 : World) (h : makeDir p w = Except.ok w1)
    (q : String) (hq : q ≠ p) : w1.fs q = w.fs q := by
  unfold makeDir at h
  split at h
  · cases h; rfl
  · cases h
  · split at h
    · cases h
      exact FS.set_other _ _ _ _ hq
    · cases h

theorem makeDirs_other (ps : List String) (w w1 : World) (h : makeDirs ps w = Except.ok w1)
    (q : String) (hq : q ∉ ps) : w1.fs q = w.fs q := by
  induction ps generalizing w with
  | nil => cases h; rfl
  | cons p ps ih =>
    unfold makeDirs at h
    cases hm : makeDir p w with
    | error e => rw [hm] at h; cases h
    | ok w2 =>
      rw [hm] at h
      have hne : q ≠ p := fun heq => hq (heq ▸ List.mem_cons_self _ _)
      have hnot : q ∉ ps := fun hin => hq (List.mem_cons_of_mem _ hin)
      rw [ih w2 h hnot, makeDir_other p w w2 hm q hne]

/-- Where one of the paths is a regular file, `makeDirs` fails. -/
theorem makeDirs_file_error (ps : List String) (w : World) (a c : String) (ha : a ∈ ps)
    (hfile : w.fs a = some (Node.file c)) : ∃ e, makeDirs ps w = Except.error e := by
  induction ps generalizing w with
  | nil => cases ha
  | cons p ps ih =>
    unfold makeDirs
    cases hm : makeDir p w with
    | error e => exact ⟨e, rfl⟩
    | ok w2 =>
      have hkeep := makeDir_keeps p w w2 hm a (Node.file c) hfile
      rcases List.mem_cons.mp ha with heq | hin
      · subst heq
        have hself := makeDir_self a w w2 hm
        rw [hkeep] at hself
        cases hself
      · exact ih w2 hin hkeep

theorem makeDirs_append (ps : List String) (p : String) (w : World) :
    makeDirs (ps ++ [p]) w =
      (match makeDirs ps w with
      | Except.error e => Except.error e
      | Except.ok w1 => makeDir p w1) := by
  induction ps generalizing w with
  | nil =>
    simp only [List.nil_append, makeDirs]
    cases makeDir p w <;> rfl
  | cons a ps ih =>
    simp only [List.cons_append, makeDirs]
    cases makeDir a w with
    | error e => rfl
    | ok w2 => exact ih w2

/-- Every ancestor is spelt shorter than the path it is an ancestor of. -/
theorem ancestorsAux_length (rest pre : List Char) (a : String)
    (ha : a ∈ ancestorsAux pre rest) : a.data.length < pre.length + rest.length := by
  induction rest generalizing pre with
  | nil => simp [ancestorsAux] at ha
  | cons c rest ih =>
    unfold ancestorsAux at ha
    split at ha
    · rcases List.mem_cons.mp ha with heq | hin
      · subst heq
        simp
      · have h := ih (pre ++ [c]) hin
        simp only [List.length_append, List.length_cons, List.length_nil] at h ⊢
        omega
    · have h := ih (pre ++ [c]) ha
      simp only [List.length_append, List.length_cons, List.length_nil] at h ⊢
      omega

/-- A path is not among its own ancestors. -/
theorem not_mem_ancestors_self (p : String) : p ∉ ancestors p := by
  intro h
  have hl := ancestorsAux_length p.data [] p h
  simp at hl

/-- The constructor, case by case. -/
theorem constructor_cases (path : String) (w : World) :
    EmailSender.EmailSender path w =
      if w.statFails path then Except.error (Exn.filesystem_error path)
      else if (w.fs path).isSome then Except.ok (⟨path⟩, w)
      else
        (match create_directories path w with
        | Except.error e => Except.error e
        | Except.ok w1 => Except.ok (⟨path⟩, w1)) := by
  unfold EmailSender.EmailSender fs_exists
  by_cases hs : w.statFails path = true
  · simp [hs]
  · by_cases hf : (w.fs path).isSome = true
    · simp [hs, hf]
    · simp [hs, hf]

/-- What a successful existence check says. -/
theorem fs_exists_ok (path : String) (w : World) (found : Bool)
    (h : fs_exists path w = Except.ok found) :
    w.statFails path = false ∧ (w.fs path).isSome = found := by
  unfold fs_exists at h
  split at h
  · cases h
  · next hs =>
    cases h
    exact ⟨by simpa using hs, rfl⟩

/-- Where the path is missing and may not be created, `create_directories` fails. -/
theorem create_directories_denied (path : String) (w : World) (hnone : w.fs path = none)
    (hdenied : w.mayCreate path = false) : ∃ e, create_directories path w = Except.error e := by
  unfold create_directories
  split
  · exact ⟨_, rfl⟩
  · rw [makeDirs_append]
    cases hm : makeDirs (ancestors path) w with
    | error e => exact ⟨e, rfl⟩
    | ok w1 =>
      have hfs : w1.fs path = none := by
        rw [makeDirs_other _ w w1 hm path (not_mem_ancestors_self path)]
        exact hnone
      have hframe := makeDirs_frame _ w w1 hm
      have hmay : w1.mayCreate path = false := by
        rw [hframe]
        exact hdenied
      refine ⟨Exn.filesystem_error path, ?_⟩
      simp [makeDir, hfs, hmay]

/-- Where an ancestor of the path is a regular file, `create_directories` fails. -/
theorem create_directories_blocked (path : String) (w : World) (a c : String)
    (ha : a ∈ ancestors path) (hfile : w.fs a = some (Node.file c)) :
    ∃ e, create_directories path w = Except.error e := by
  unfold create_directories
  split
  · exact ⟨_, rfl⟩
  · exact makeDirs_file_error _ w a c (List.mem_append_left _ ha) hfile

/-- C6 (counterexample). Where `emails` exists as a regular file, the
constructor returns normally and leaves the world as it was. -/
theorem constructor_file_counterexample :
    worldFileAtEmails.fs "emails" = some (Node.file "notes") ∧
    EmailSender.EmailSender "emails" worldFileAtEmails
      = Except.ok (⟨"emails"⟩, worldFileAtEmails) :=
  ⟨rfl, rfl⟩

/-- C6 (amended). The constructor fails with an I/O error whenever the
existence check of the path fails, and whenever the path does not exist and the
directory cannot be created: whenever `create_directories` fails, which it
does where the path may not be created and where an ancestor of the path is a
regular file. For a path that exists already, be it as a regular file, the
constructor signals no error: it returns normally and changes nothing. -/
theorem constructor_errors (path : String) (w : World) :
    (∀ e, fs_exists path w = Except.error e →
      EmailSender.EmailSender path w = Except.error e) ∧
    (∀ e, fs_exists path w = Except.ok false → create_directories path w = Except.error e →
      EmailSender.EmailSender path w = Except.error e) ∧
    (fs_exists path w = Except.ok false → w.mayCreate path = false →
      ∃ e, EmailSender.EmailSender path w = Except.error e) ∧
    (∀ a c, fs_exists path w = Except.ok false → a ∈ ancestors path →
      w.fs a = some (Node.file c) → ∃ e, EmailSender.EmailSender path w = Except.error e) ∧
    (∀ n, fs_exists path w = Except.ok true → w.fs path = some n →
      EmailSender.EmailSender path w = Except.ok (⟨path⟩, w)) := by
  have hmissing : ∀ e, fs_exists path w = Except.ok false →
      create_directories path w = Except.error e →
      EmailSender.EmailSender path w = Except.error e := by
    intro e hex hc
    simp [EmailSender.EmailSender, hex, hc]
  refine ⟨?_, hmissing, ?_, ?_, ?_⟩
  · intro e hex
    simp [EmailSender.EmailSender, hex]
  · intro hex hdenied
    have hnone : w.fs path = none := by
      have h := (fs_exists_ok path w false hex).2
      simpa using h
    obtain ⟨e, he⟩ := create_directories_denied path w hnone hdenied
    exact ⟨e, hmissing e hex he⟩
  · intro a c hex ha hfile
    obtain ⟨e, he⟩ := create_directories_blocked path w a c ha hfile
    exact ⟨e, hmissing e hex he⟩
  · intro n hex _
    simp [EmailSender.EmailSender, hex]

/-- C6 (witness). A status that cannot be read, a missing directory that may
not be created and a regular file in the place of an ancestor are errors; a
regular file in the place of the directory itself is not. -/
theorem constructor_errors_witness :
    EmailSender.EmailSender "emails" worldUnsearchable
      = Except.error (Exn.filesystem_error "emails") ∧
    (∃ e, EmailSender.EmailSender "emails" worldLocked = Except.error e) ∧
    (∃ e, EmailSender.EmailSender "data/emails" worldFileAtData = Except.error e) ∧
    EmailSender.EmailSender "emails" worldFileAtEmails
      = Except.ok (⟨"emails"⟩, worldFileAtEmails) :=
  ⟨(constructor_errors "emails" worldUnsearchable).1 _ rfl,
   (constructor_errors "emails" worldLocked).2.2.1 rfl rfl,
   (constructor_errors "data/emails" worldFileAtData).2.2.2.1 "data" "notes" rfl
     (by decide) rfl,
   (constructor_errors "emails" worldFileAtEmails).2.2.2.2 _ rfl rfl⟩

/-- The constructor changes nothing but the filesystem, and there it keeps
every entry there is. -/
theorem constructor_frame (path : String) (w : World) (s : EmailSender) (w1 : World)
    (h : EmailSender.EmailSender path w = Except.ok (s, w1)) :
    s = ⟨path⟩ ∧ w1 = { w with fs := w1.fs } ∧
      ∀ q n, w.fs q = some n → w1.fs q = some n := by
  rw [constructor_cases] at h
  split at h
  · cases h
  · split at h
    · cases h
      exact ⟨rfl, rfl, fun q n hq => hq⟩
    · cases hc : create_directories path w with
      | error e => rw [hc] at h; cases h
      | ok w2 =>
        rw [hc] at h
        cases h
        unfold create_directories at hc
        split at hc
        · cases hc
        · exact ⟨rfl, makeDirs_frame _ w w1 hc, fun q n hq => makeDirs_keeps _ w w1 hc q n hq⟩

/-- C7. Whenever a first call of the constructor on a path succeeded, a second
call on the same path, in the world the first call left, succeeds as well and
leaves that world, its whole filesystem included, exactly as it was; and the
first call itself kept every entry that existed before it. -/
theorem constructor_idempotent (path : String) (w : World) (s : EmailSender) (w1 : World)
    (h : EmailSender.EmailSender path w = Except.ok (s, w1)) :
    EmailSender.EmailSender path w1 = Except.ok (s, w1) ∧
      ∀ q n, w.fs q = some n → w1.fs q = some n := by
  refine ⟨?_, (constructor_frame path w s w1 h).2.2⟩
  have hs := (constructor_frame path w s w1 h).1
  have hframe := (constructor_frame path w s w1 h).2.1
  subst hs
  have hex : w1.statFails path = false ∧ (w1.fs path).isSome = true := by
    rw [constructor_cases] at h
    split at h
    · cases h
    · next hstat =>
      have hstat1 : w1.statFails path = false := by
        rw [hframe]
        simpa using hstat
      split at h
      · next hsome =>
        cases h
        exact ⟨hstat1, hsome⟩
      · cases hc : create_directories path w with
        | error e => rw [hc] at h; cases h
        | ok w2 =>
          rw [hc] at h
          cases h
          exact ⟨hstat1, by simp [create_directories_self path w w1 hc]⟩
  rw [constructor_cases]
  simp [hex.1, hex.2]

/-- C7 (witness). In an empty filesystem the first call creates `emails`; the
second call returns the same sender and the same world. -/
theorem constructor_idempotent_witness :
    EmailSender.EmailSender "emails" world0 = Except.ok (⟨"emails"⟩, worldWithEmails) ∧
    EmailSender.EmailSender "emails" worldWithEmails
      = Except.ok (⟨"emails"⟩, worldWithEmails) :=
  ⟨rfl, (constructor_idempotent "emails" world0 ⟨"emails"⟩ worldWithEmails rfl).1⟩

/-- What a call of `sendEmail` leaves untouched. -/
theorem sendEmail_frame (self : EmailSender) (to_ subject body from_ : String) (w : World) :
    (self.sendEmail to_ subject body from_ w).2.mayOpen = w.mayOpen ∧
    (self.sendEmail to_ subject body from_ w).2.room = w.room ∧
    (self.sendEmail to_ subject body from_ w).2.clock = w.clock ∧
    (self.sendEmail to_ subject body from_ w).2.localFormat = w.localFormat := by
  rw [sendEmail_eq]
  split_ifs <;> exact ⟨rfl, rfl, rfl, rfl⟩

/-- C8. For two sends in a row by one sender whose timestamps (the results of
`getTimestamp` that name the files) differ, the two file names differ; and
when both files can be opened, after the second send each of the two paths
holds what its own send wrote. -/
theorem sendEmail_distinct_files (self : EmailSender)
    (to1 subject1 body1 from1 to2 subject2 body2 from2 : String) (w : World)
    (hdiff : (self.getTimestamp w).1 ≠
      (self.getTimestamp (self.sendEmail to1 subject1 body1 from1 w).2).1) :
    emailFilename self.storagePath (self.getTimestamp w).1 ≠
      emailFilename self.storagePath
        (self.getTimestamp (self.sendEmail to1 subject1 body1 from1 w).2).1 ∧
    (w.mayOpen (emailFilename self.storagePath (self.getTimestamp w).1) = true →
      w.mayOpen (emailFilename self.storagePath
        (self.getTimestamp (self.sendEmail to1 subject1 body1 from1 w).2).1) = true →
      (self.sendEmail to2 subject2 body2 from2
          (self.sendEmail to1 subject1 body1 from1 w).2).2.fs
          (emailFilename self.storagePath (self.getTimestamp w).1)
        = some (Node.file (accepted
            (w.room (emailFilename self.storagePath (self.getTimestamp w).1))
            (messageText to1 subject1 body1 from1 w))) ∧
      (self.sendEmail to2 subject2 body2 from2
          (self.sendEmail to1 subject1 body1 from1 w).2).2.fs
          (emailFilename self.storagePath
            (self.getTimestamp (self.sendEmail to1 subject1 body1 from1 w).2).1)
        = some (Node.file (accepted
            (w.room (emailFilename self.storagePath
              (self.getTimestamp (self.sendEmail to1 subject1 body1 from1 w).2).1))
            (messageText to2 subject2 body2 from2
              (self.sendEmail to1 subject1 body1 from1 w).2)))) := by
  have hne : emailFilename self.storagePath (self.getTimestamp w).1 ≠
      emailFilename self.storagePath
        (self.getTimestamp (self.sendEmail to1 subject1 body1 from1 w).2).1 :=
    fun h => hdiff (emailFilename_inj _ _ _ h)
  refine ⟨hne, ?_⟩
  intro ho1 ho2
  obtain ⟨fO, fR, _, _⟩ := sendEmail_frame self to1 subject1 body1 from1 w
  have e1 : emailFilename self.storagePath (self.getTimestamp w).1 = targetFile self w := rfl
  have e2 : emailFilename self.storagePath
      (self.getTimestamp (self.sendEmail to1 subject1 body1 from1 w).2).1
      = targetFile self (self.sendEmail to1 subject1 body1 from1 w).2 := rfl
  rw [e1] at ho1 hne ⊢
  rw [e2] at ho2 hne ⊢
  have ho2b : (self.sendEmail to1 subject1 body1 from1 w).2.mayOpen
      (targetFile self (self.sendEmail to1 subject1 body1 from1 w).2) = true := by
    rw [fO]; exact ho2
  rw [sendEmail_fs self to2 subject2 body2 from2 (self.sendEmail to1 subject1 body1 from1 w).2]
  simp only [ho2b, if_true, afterWrite]
  constructor
  · rw [FS.set_other _ _ _ _ hne, sendEmail_fs]
    simp only [ho1, if_true, afterWrite]
    exact FS.set_same _ _ _
  · rw [FS.set_same, fR]

/-- C8 (witness). Two sends three seconds apart write two files, one per message. -/
theorem sendEmail_distinct_files_witness :
    "emails/2023-11-14 22:13:20.eml" ≠ "emails/2023-11-14 22:13:23.eml" ∧
    ((⟨"emails"⟩ : EmailSender).sendEmail "bob@example.com" "Two" "second\n" "noreply@localhost"
        ((⟨"emails"⟩ : EmailSender).sendEmail "alice@example.com" "One" "first\n"
          "noreply@localhost" worldTicking).2).2.fs "emails/2023-11-14 22:13:20.eml"
      = some (Node.file ("From: noreply@localhost\nTo: alice@example.com\nSubject: One\n" ++
          "Date: 2023-11-14 22:13:22\nMessage-ID: <1700000001@local>\n\nfirst\n\n")) ∧
    ((⟨"emails"⟩ : EmailSender).sendEmail "bob@example.com" "Two" "second\n" "noreply@localhost"
        ((⟨"emails"⟩ : EmailSender).sendEmail "alice@example.com" "One" "first\n"
          "noreply@localhost" worldTicking).2).2.fs "emails/2023-11-14 22:13:23.eml"
      = some (Node.file ("From: noreply@localhost\nTo: bob@example.com\nSubject: Two\n" ++
          "Date: 2023-11-14 22:13:25\nMessage-ID: <1700000004@local>\n\nsecond\n\n")) :=
  have h := sendEmail_distinct_files ⟨"emails"⟩ "alice@example.com" "One" "first\n"
    "noreply@localhost" "bob@example.com" "Two" "second\n" "noreply@localhost" worldTicking
    (by decide)
  ⟨h.1, (h.2 (by decide) (by decide)).1, (h.2 (by decide) (by decide)).2⟩

theorem join_cons (a : String) (l : List String) :
    String.join (a :: l) = a ++ String.join l := by
  apply String.ext
  simp [String.data_join]

/-- The loop of `main` appends to the body every line before the first ".",
each with its newline. -/
theorem readBody_fst (lines : List String) (body : String) :
    (readBody lines body).1 =
      body ++ String.join ((lines.takeWhile (fun l => l != ".")).map (fun l => l ++ "\n")) := by
  induction lines generalizing body with
  | nil => simp [readBody, String.join]
  | cons line rest ih =>
    by_cases h : (line != ".") = true
    · simp only [readBody, h, if_true, List.takeWhile_cons, List.map_cons, join_cons]
      rw [ih, String.append_assoc]
    · simp [readBody, h, List.takeWhile_cons, String.join]

/-- The three fields `main` reads are those the specification names. -/
theorem readMessage_fst (w : World) :
    (readMessage w).1 = (specRecipient w.stdin, specSubject w.stdin, specBody w.stdin) := by
  obtain ⟨win32, fs, statFails, mayCreate, mayOpen, room, system, clock, reads, localFormat, stdin,
    cout, cerr⟩ := w
  cases stdin with
  | nil =>
    simp [readMessage, getline, World.print, readBody, specRecipient, specSubject, specBody,
      String.join]
  | cons a rest =>
    cases rest with
    | nil =>
      simp [readMessage, getline, World.print, readBody, specRecipient, specSubject, specBody,
        String.join]
    | cons b rest =>
      simp [readMessage, getline, World.print, readBody_fst, specRecipient, specSubject,
        specBody]

/-- C9. Whatever the lines of standard input, `main` calls `sendEmail` with
the first line as recipient, the second as subject, and as body the lines
after the second that precede the first line equal to "." (all of them when
there is none), each followed by a newline, in order. A line such as ".." or
". " does not end the body; the terminator and the lines after it are left out. -/
theorem main_reads_message (w : World) :
    main w =
      (match EmailSender.EmailSender "emails" w with
      | Except.error e => Except.error e
      | Except.ok (sender, w1) =>
        Except.ok (0, report (sender.sendEmail (specRecipient w.stdin) (specSubject w.stdin)
          (specBody w.stdin) "noreply@localhost" (readMessage w1).2))) ∧
    specBody ["alice@example.com", "Hi", "hello", "."] = "hello\n" ∧
    specBody ["alice@example.com", "Hi", "..", ". ", "x.", ".", "after", "."] = "..\n. \nx.\n" ∧
    specBody ["alice@example.com", "Hi", "one", "two"] = "one\ntwo\n" := by
  refine ⟨?_, by decide, by decide, by decide⟩
  unfold main
  cases h : EmailSender.EmailSender "emails" w with
  | error e => rfl
  | ok p =>
    obtain ⟨sender, w1⟩ := p
    have hf := (constructor_frame "emails" w sender w1 h).2.1
    have hstdin : w1.stdin = w.stdin := by rw [hf]
    have hm := readMessage_fst w1
    rw [hstdin] at hm
    show Except.ok (0, report (sender.sendEmail (readMessage w1).1.1 (readMessage w1).1.2.1
      (readMessage w1).1.2.2 "noreply@localhost" (readMessage w1).2)) = _
    rw [hm]

/-- How many clock readings a call of `sendEmail` takes. -/
theorem sendEmail_reads (self : EmailSender) (to_ subject body from_ : String) (w : World) :
    (self.sendEmail to_ subject body from_ w).2.reads =
      if w.mayOpen (targetFile self w) then w.reads + 3 else w.reads + 2 := by
  rw [sendEmail_eq]
  split_ifs <;> rfl

/-- C10 (counterexample). Two sends in the same second: where no file can be
opened, the storage directory holds no file for them afterwards; and on a
device that accepts ten characters the file does not hold the second message. -/
theorem sendEmail_collision_counterexample :
    ((⟨"emails"⟩ : EmailSender).sendEmail "bob@example.com" "Two" "second\n" "noreply@localhost"
        ((⟨"emails"⟩ : EmailSender).sendEmail "alice@example.com" "One" "first\n"
          "noreply@localhost" worldSealed).2).2.fs "emails/2023-11-14 22:13:20.eml" = none ∧
    ((⟨"emails"⟩ : EmailSender).sendEmail "bob@example.com" "Two" "second\n" "noreply@localhost"
        ((⟨"emails"⟩ : EmailSender).sendEmail "alice@example.com" "One" "first\n"
          "noreply@localhost" worldFull).2).2.fs "emails/2023-11-14 22:13:20.eml"
      = some (Node.file "From: nore") := by
  decide

/-- C10 (amended). For two sends in a row by one sender whose file-name
timestamps are the same, both calls target the same path; when that file can
be opened and the device accepts the second message, the path holds exactly
the second message after the second call, nothing of the first, and every
other path is as it was before the two calls: one file for the two sends. -/
theorem sendEmail_same_second_overwrites (self : EmailSender)
    (to1 subject1 body1 from1 to2 subject2 body2 from2 : String) (w : World)
    (hsame : (self.getTimestamp w).1 =
      (self.getTimestamp (self.sendEmail to1 subject1 body1 from1 w).2).1)
    (hopen : w.mayOpen (emailFilename self.storagePath (self.getTimestamp w).1) = true)
    (hroom : accepted (w.room (emailFilename self.storagePath (self.getTimestamp w).1))
        (emailContent from2 to2 subject2 (w.localFormat (w.clock (w.reads + 5)))
          (emailMessageId (w.clock (w.reads + 4))) body2)
      = emailContent from2 to2 subject2 (w.localFormat (w.clock (w.reads + 5)))
          (emailMessageId (w.clock (w.reads + 4))) body2) :
    emailFilename self.storagePath
        (self.getTimestamp (self.sendEmail to1 subject1 body1 from1 w).2).1
      = emailFilename self.storagePath (self.getTimestamp w).1 ∧
    (self.sendEmail to2 subject2 body2 from2
        (self.sendEmail to1 subject1 body1 from1 w).2).2.fs
        (emailFilename self.storagePath (self.getTimestamp w).1)
      = some (Node.file (emailContent from2 to2 subject2
          (w.localFormat (w.clock (w.reads + 5))) (emailMessageId (w.clock (w.reads + 4)))
          body2)) ∧
    ∀ p, p ≠ emailFilename self.storagePath (self.getTimestamp w).1 →
      (self.sendEmail to2 subject2 body2 from2
        (self.sendEmail to1 subject1 body1 from1 w).2).2.fs p = w.fs p := by
  obtain ⟨fO, fR, fC, fL⟩ := sendEmail_frame self to1 subject1 body1 from1 w
  have e1 : emailFilename self.storagePath (self.getTimestamp w).1 = targetFile self w := rfl
  have e2 : emailFilename self.storagePath
      (self.getTimestamp (self.sendEmail to1 subject1 body1 from1 w).2).1
      = targetFile self (self.sendEmail to1 subject1 body1 from1 w).2 := rfl
  have hfile : targetFile self (self.sendEmail to1 subject1 body1 from1 w).2
      = targetFile self w := by
    rw [← e1, ← e2, ← hsame]
  rw [e1] at hopen hroom ⊢
  rw [e2, hfile]
  have hreads := sendEmail_reads self to1 subject1 body1 from1 w
  simp only [hopen, if_true] at hreads
  have hopen2 : (self.sendEmail to1 subject1 body1 from1 w).2.mayOpen
      (targetFile self (self.sendEmail to1 subject1 body1 from1 w).2) = true := by
    rw [fO, hfile]; exact hopen
  have htext : messageText to2 subject2 body2 from2 (self.sendEmail to1 subject1 body1 from1 w).2
      = emailContent from2 to2 subject2 (w.localFormat (w.clock (w.reads + 5)))
          (emailMessageId (w.clock (w.reads + 4))) body2 := by
    simp only [messageText, fC, fL, hreads]
  rw [sendEmail_fs self to2 subject2 body2 from2 (self.sendEmail to1 subject1 body1 from1 w).2]
  have hopen3 : (self.sendEmail to1 subject1 body1 from1 w).2.mayOpen (targetFile self w)
      = true := by
    rw [fO]; exact hopen
  simp only [hopen2, hopen3, if_true, afterWrite, hfile, fR, htext, hroom]
  refine ⟨trivial, FS.set_same _ _ _, ?_⟩
  intro p hp
  rw [FS.set_other _ _ _ _ hp, sendEmail_fs]
  simp only [hopen, if_true, afterWrite]
  exact FS.set_other _ _ _ _ hp

/-- C10 (witness). Two sends in the same second: the one file holds the
second message. -/
theorem sendEmail_same_second_overwrites_witness :
    ((⟨"emails"⟩ : EmailSender).sendEmail "bob@example.com" "Two" "second\n" "noreply@localhost"
        ((⟨"emails"⟩ : EmailSender).sendEmail "alice@example.com" "One" "first\n"
          "noreply@localhost" world0).2).2.fs "emails/2023-11-14 22:13:20.eml"
      = some (Node.file ("From: noreply@localhost\nTo: bob@example.com\nSubject: Two\n" ++
          "Date: 2023-11-14 22:13:20\nMessage-ID: <1700000000@local>\n\nsecond\n\n")) :=
  (sendEmail_same_second_overwrites ⟨"emails"⟩ "alice@example.com" "One" "first\n"
    "noreply@localhost" "bob@example.com" "Two" "second\n" "noreply@localhost" world0
    (by decide) (by decide) (by decide)).2.1

/-- The scenario of the specification, run through `main`: the recipient, the
subject and the body lines "hello" and "." on standard input give a file with
the lines `To: alice@example.com` and `Subject: Hi` and the body section;
the line after the terminator stays unread and the exit status is 0. -/
theorem main_scenario :
    (match main worldInput with
      | Except.ok (status, w) =>
        (status, w.fs "emails", w.fs "emails/2023-11-14 22:13:20.eml", w.stdin, w.cout, w.cerr)
      | Except.error _ => (1, none, none, [], "", ""))
    = (0, some Node.dir,
        some (Node.file ("From: noreply@localhost\nTo: alice@example.com\nSubject: Hi\n" ++
          "Date: 2023-11-14 22:13:20\nMessage-ID: <1700000000@local>\n\nhello\n\n")),
        ["ignored"],
        "To: Subject: Body (end with a dot on a new line):\nEmail sent successfully!\n",
        "") := by
  decide

end EmailSim
